import Mathlib

/-!
# AutoDQ — verification of the spec against a shallow embedding of the code

This file embeds, in Lean, the data model and the operations of the AutoDQ
data-quality dashboard that the frozen claims talk about:

* `coverage.py` — the coverage aggregator (distinct-rule counts and banding);
* `alerts.py` — the alert feed and its severity assignment;
* `anomaly_detection.py` — the z-score outlier flagger;
* the preprocessing block of `app.py` — trim / lower-case / derive
  `Table.Column` / parse timestamps and drop unparsable rows;
* `dq_tracker.py` — the action-tracker ledger: import of failed records,
  deduplication, and the bulk "Apply to Selected" action;
* `environment_detector.py` and `dq_tracker.py` — connection resolution.

Tabular data is modelled as lists of records (one structure per frame shape),
numeric cell values as `Option ℚ` (`none` is a null / NaN cell), and Python
strings as `String` or as `List Char` where character-level reasoning about
stripping and lower-casing is needed.  Fallible code is modelled with
`Except`/`Option`.
-/

namespace AutoDQ

/-! ## Coverage aggregator (`coverage.py`) -/

/-- One row of the preprocessed validation frame, restricted to the fields
`coverage.render` reads: `df.groupby(['Table','Column'])['Rule_Display_Name']`. -/
structure CoverageRecord where
  Table : String
  Column : String
  Rule_Display_Name : String
deriving DecidableEq, Repr

/-- The `Rule_Display_Name` values of the rows grouped under the (`t`, `c`)
cell, i.e. the rows whose `Table` is `t` and whose `Column` is `c`. -/
def rulesFor (records : List CoverageRecord) (t c : String) : List String :=
  (records.filter fun r => r.Table == t && r.Column == c).map
    CoverageRecord.Rule_Display_Name

/-- The coverage cell for `(t, c)`: `.nunique()` of `Rule_Display_Name` over
the group — the number of distinct values.  `unstack(fill_value=0)` fills a
pair with no rows with `0`, which is also what `nunique` of an empty group
gives, so this function covers both cases. -/
def coverageCount (records : List CoverageRecord) (t c : String) : ℕ :=
  (rulesFor records t c).dedup.length

/-- The three colour bands of the heatmap cell style in `coverage.render`.  In
the JsCode: `value == 0` → soft red ("blind spot"), `value <= 10` → soft
yellow ("partial"), otherwise soft green ("well covered"). -/
inductive CoverageBand where
  | blindSpot
  | midCoverage
  | wellCovered
deriving DecidableEq, Repr

/-- The band of a cell value, transcribing the cell-style JsCode of
`coverage.render`. -/
def coverageBand (n : ℕ) : CoverageBand :=
  if n = 0 then .blindSpot
  else if n ≤ 10 then .midCoverage
  else .wellCovered

/-! ## Alert feed (`alerts.py`) -/

/-- One row of the preprocessed validation frame (string view), with the
columns `alerts.render` reads. -/
structure ValidationRecord where
  Run_Timestamp : String
  Table : String
  Column : String
  Rule_Display_Name : String
  Status : String
  Failure_Type : String
deriving DecidableEq, Repr

/-- The rules `alerts.render` deems critical:
`critical_rules = ["No Nulls", "Unique Values", "Primary Key Present", "Foreign Key Valid"]`. -/
def critical_rules : List String :=
  ["No Nulls", "Unique Values", "Primary Key Present", "Foreign Key Valid"]

/-- One row of the alert feed built by `alerts.render` (after the column
renames `Run_Timestamp → Time`, `Rule_Display_Name → Rule`,
`Failure_Type → Message`). -/
structure AlertRow where
  Time : String
  Table : String
  Rule : String
  Status : String
  Message : String
  Severity : String
deriving DecidableEq, Repr

/-- The alert feed of `alerts.render`: keep the rows with `Status == 'Failed'`,
rename the columns, and assign
`Severity = 'Critical' if Rule in critical_rules else 'Warning'`.
(The final `sort_values(by='Time')` is a permutation of the rows and is not
modelled; the claims are about the per-row fields.) -/
def alertFeed (df : List ValidationRecord) : List AlertRow :=
  (df.filter fun r => r.Status == "Failed").map fun r =>
    { Time := r.Run_Timestamp
      Table := r.Table
      Rule := r.Rule_Display_Name
      Status := r.Status
      Message := r.Failure_Type
      Severity := if r.Rule_Display_Name ∈ critical_rules then "Critical" else "Warning" }

/-! ## Outlier flagger (`anomaly_detection.py`, z-score method)

`render` runs `df_selected = df[selected_cols].dropna()`, then
`z_scores = zscore(df_selected)` (scipy, population standard deviation,
`ddof = 0`, per column) and `anomaly_mask = (z_df.abs() > 3).any(axis=1)`.
A numeric cell (after `pd.to_numeric(..., errors="coerce")`) is `Option ℚ`,
`none` being a null/NaN.  A selection of `k` numeric columns is modelled by
projecting the frame to its selected columns: the input is a list of rows of
width `k`.  The scipy z-score `(x - mean) / std` is over floats; here values
are exact rationals, and the float comparison `|z| > 3` is transcribed as the
equivalent squared comparison `(x - mean)² > 9 · var` guarded by `var ≠ 0`
(when `var = 0` the z-scores are NaN and NaN comparisons are false);
`zFlagged_iff_real` below proves this transcription equal to the literal
`|(x - mean)| / √var > 3` over `ℝ`. -/

/-- A numeric cell after `pd.to_numeric(errors="coerce")`: `none` is NaN. -/
abbrev NumCell := Option ℚ

/-- Extract a row with no null cell to its list of values (`none` if the row
has any null). -/
def seqCells : List NumCell → Option (List ℚ)
  | [] => some []
  | none :: _ => none
  | some q :: rest => (seqCells rest).map fun v => q :: v

/-- `df[selected_cols].dropna()`: the rows with no null in any selected
column, with their original row indices. -/
def dropnaRows (t : List (List NumCell)) : List (ℕ × List ℚ) :=
  t.enum.filterMap fun p => (seqCells p.2).map fun v => (p.1, v)

/-- The value rows of the scored subset (index column dropped). -/
def scoredValues (t : List (List NumCell)) : List (List ℚ) :=
  (dropnaRows t).map Prod.snd

/-- Column `c` of the scored subset. -/
def colValues (rows : List (List ℚ)) (c : ℕ) : List ℚ :=
  rows.map fun r => r.getD c 0

/-- Mean of a column. -/
def listMean (l : List ℚ) : ℚ := l.sum / (l.length : ℚ)

/-- Population variance of a column (scipy `zscore` default `ddof = 0`). -/
def listVar (l : List ℚ) : ℚ :=
  ((l.map fun x => (x - listMean l) ^ 2).sum) / (l.length : ℚ)

/-- `|zscore(x)| > 3` for one cell: `(x - mean)² > 9 · var`, false when the
column has zero variance (NaN z-scores compare false). -/
def zFlagged (l : List ℚ) (x : ℚ) : Bool :=
  decide (listVar l ≠ 0) && decide (9 * listVar l < (x - listMean l) ^ 2)

/-- `(z_df.abs() > 3).any(axis=1)` for one scored row. -/
def rowFlagged (k : ℕ) (scored : List (List ℚ)) (r : List ℚ) : Bool :=
  (List.range k).any fun c => zFlagged (colValues scored c) (r.getD c 0)

/-- The z-score anomaly mask of `anomaly_detection.render`: one boolean per
scored row, indexed by the original row index; rows dropped by `dropna` are
absent. -/
def zscoreMask (k : ℕ) (t : List (List NumCell)) : List (ℕ × Bool) :=
  (dropnaRows t).map fun p => (p.1, rowFlagged k (scoredValues t) p.2)

/-! ## Tabular preprocessor (the preprocessing block of `app.py`)

The block runs, for a non-empty frame:
`df['Table'] = df['Table'].str.strip()`, `df['Column'] = df['Column'].str.strip()`,
`df['Table'] = df['Table'].str.lower()`,
`df['Table.Column'] = df['Table'].astype(str) + '.' + df['Column'].astype(str)`,
`df['Run_Timestamp'] = pd.to_datetime(df['Run_Timestamp'], errors='coerce')`,
`df.dropna(subset=['Run_Timestamp'], inplace=True)`.

A Python string is modelled as its list of Unicode code points (`List ℕ`);
`str.strip` removes leading/trailing whitespace and `str.lower` maps the
ASCII upper-case range down (code point `46` is `'.'`).  A `Run_Timestamp`
cell is either a raw string or an already-parsed instant; `pd.to_datetime`
is an uninterpreted parse function on raw strings and the identity on
already-parsed values (its idempotence on parsed values).  The frame is the
projection to the four columns the block touches; all steps are row-wise, so
the column-by-column statements become one `filterMap`. -/

/-- A Python string, as its list of Unicode code points. -/
abbrev PyStr := List ℕ

/-- Whitespace for `str.strip`: space, tab, LF, CR, VT, FF. -/
def isSpaceCode (n : ℕ) : Bool :=
  decide (n = 32 ∨ n = 9 ∨ n = 10 ∨ n = 13 ∨ n = 11 ∨ n = 12)

/-- `str.strip()`: drop leading and trailing whitespace. -/
def pyStrip (s : PyStr) : PyStr :=
  (s.dropWhile isSpaceCode).rdropWhile isSpaceCode

/-- `str.lower()` on one code point (ASCII range). -/
def lowerCode (n : ℕ) : ℕ := if 65 ≤ n ∧ n ≤ 90 then n + 32 else n

/-- `str.lower()`. -/
def pyLower (s : PyStr) : PyStr := s.map lowerCode

/-- A `Run_Timestamp` cell: a raw string, or an already-parsed instant. -/
inductive TsCell where
  | raw (s : PyStr)
  | parsed (t : ℤ)
deriving DecidableEq, Repr

/-- `pd.to_datetime(.., errors="coerce")` on one cell: parse raw strings
(`none` is `NaT`), keep already-parsed values. -/
def to_datetime (parse : PyStr → Option ℤ) : TsCell → Option ℤ
  | .raw s => parse s
  | .parsed t => some t

/-- One row of the frame, projected to the columns the block touches. -/
structure FrameRow where
  Table : PyStr
  Column : PyStr
  TableColumn : PyStr
  Run_Timestamp : TsCell
deriving DecidableEq, Repr

/-- The preprocessing block of `app.py`: strip `Table` and `Column`,
lower-case `Table`, derive `Table.Column`, parse `Run_Timestamp` and drop
the rows where parsing fails. -/
def preprocess (parse : PyStr → Option ℤ) (df : List FrameRow) : List FrameRow :=
  df.filterMap fun r =>
    let tbl := pyLower (pyStrip r.Table)
    let col := pyStrip r.Column
    match to_datetime parse r.Run_Timestamp with
    | none => none
    | some ts => some ⟨tbl, col, tbl ++ 46 :: col, .parsed ts⟩

/-! ## Action tracker (`dq_tracker.py`)

The ledger lives in `st.session_state.action_tracker`.  The Load Failed
Records handler fetches failed records (deduplicated in
`fetch_failed_records` by `drop_duplicates(subset=['Table', 'Column',
'Rule_Display_Name', 'Failed_Row_ID'], keep='first')`), gives them
`Action_Status = "Open"`, `Assignee = ""`, `Notes = ""`, and appends only
those whose `"|"`-joined key string is not among the existing entries'
joined key strings; the Apply-to-Selected handler overwrites
`Action_Status` and `Assignee` on the filtered rows, each only when the
chosen value is truthy (a non-empty string). -/

/-- One record of the failed-validation query result. -/
structure FailedRecord where
  Table : String
  Column : String
  Rule_Display_Name : String
  Failed_Row_ID : String
  Failed_Value : String
deriving DecidableEq, Repr

/-- One ledger entry (the `REQUIRED_TRACKER_COLS` columns). -/
structure TrackerRow where
  Table : String
  Column : String
  Rule_Display_Name : String
  Failed_Row_ID : String
  Failed_Value : String
  Action_Status : String
  Assignee : String
  Notes : String
deriving DecidableEq, Repr

/-- The composite key of the data model: (table, column, rule display name,
failed row id). -/
abbrev CompositeKey := String × String × String × String

/-- The composite key of a failed record. -/
def recKey (r : FailedRecord) : CompositeKey :=
  (r.Table, r.Column, r.Rule_Display_Name, r.Failed_Row_ID)

/-- The composite key of a ledger entry. -/
def rowKey (e : TrackerRow) : CompositeKey :=
  (e.Table, e.Column, e.Rule_Display_Name, e.Failed_Row_ID)

/-- The `"|"`-joined key string the Load handler actually compares
(`Table + "|" + Column + "|" + Rule_Display_Name + "|" + Failed_Row_ID`). -/
def joinKey (k : CompositeKey) : String :=
  k.1 ++ "|" ++ k.2.1 ++ "|" ++ k.2.2.1 ++ "|" ++ k.2.2.2

/-- `DataFrame.drop_duplicates(subset=key, keep='first')`: keep the first
record of each composite key, scanning left to right (`seen` holds the keys
already kept). -/
def drop_duplicates : List FailedRecord → List CompositeKey → List FailedRecord
  | [], _ => []
  | r :: rest, seen =>
    if recKey r ∈ seen then drop_duplicates rest seen
    else r :: drop_duplicates rest (recKey r :: seen)

/-- `fetch_failed_records`, applied to the records the warehouse returned:
the key-level deduplication safeguard. -/
def fetch_failed_records (raw : List FailedRecord) : List FailedRecord :=
  drop_duplicates raw []

/-- A fetched record as a fresh ledger entry: the Load handler sets
`Action_Status = "Open"`, `Assignee = ""`, `Notes = ""`. -/
def toTrackerRow (f : FailedRecord) : TrackerRow :=
  { Table := f.Table, Column := f.Column, Rule_Display_Name := f.Rule_Display_Name,
    Failed_Row_ID := f.Failed_Row_ID, Failed_Value := f.Failed_Value,
    Action_Status := "Open", Assignee := "", Notes := "" }

/-- The Load Failed Records handler: nothing happens when the fetch is
empty; an empty ledger is replaced by the fresh entries; otherwise the
entries whose joined key string is absent from the existing joined keys are
appended. -/
def loadFailedRecords (tracker : List TrackerRow) (failed : List FailedRecord) :
    List TrackerRow :=
  if failed.isEmpty then tracker
  else
    let failedRows := failed.map toTrackerRow
    if tracker.isEmpty then failedRows
    else
      let existing_keys := tracker.map fun x => joinKey (rowKey x)
      tracker ++ failedRows.filter fun e => !(existing_keys.contains (joinKey (rowKey e)))

/-- The Apply-to-Selected handler: on the rows whose index is in the
filtered subset, overwrite `Action_Status` when `bulk_status` is truthy and
`Assignee` when `bulk_assignee` is truthy; other rows are untouched. -/
def applyToSelected (tracker : List TrackerRow) (selected : List ℕ)
    (bulk_status bulk_assignee : String) : List TrackerRow :=
  tracker.enum.map fun p =>
    if p.1 ∈ selected then
      { p.2 with
        Action_Status := if bulk_status ≠ "" then bulk_status else p.2.Action_Status
        Assignee := if bulk_assignee ≠ "" then bulk_assignee else p.2.Assignee }
    else p.2

/-! ## Connection resolver (`environment_detector.py`, `dq_tracker.py`)

`EnvState` collects exactly what the detector reads: the environment
variables (`none` is unset; an empty string is falsy like in Python) and
the existence of the marker paths and config files.  `get_connection_config`
transcribes `EnvironmentDetector.get_connection_config`, and
`get_databricks_connection_params` transcribes the parameter getter of
`dq_tracker.py`, whose `raise ValueError(...)` is an `Except.error`.
(In the `client_configured` branch the Python dict simply lacks a
`requires_setup` key; callers read it with `.get("requires_setup", False)`,
so the field is `false` there.) -/

/-- Python truthiness of an optional environment-variable value. -/
def pyTruthy : Option String → Bool
  | none => false
  | some s => !(s == "")

/-- The parts of the process environment the detector reads. -/
structure EnvState where
  DATABRICKS_RUNTIME_VERSION : Option String
  DATABRICKS_WORKSPACE_URL : Option String
  DATABRICKS_WORKSPACE_ID : Option String
  databricks_driver_exists : Bool
  databricks_spark_exists : Bool
  DATABRICKS_APP_ID : Option String
  DATABRICKS_APP_NAME : Option String
  LAKEHOUSE_APP_MODE : Option String
  env_file_exists : Bool
  config_file_exists : Bool
  DATABRICKS_HOST : Option String
  DATABRICKS_TOKEN : Option String
  DATABRICKS_HTTP_PATH : Option String
  DATABRICKS_SSL_VERIFY : Option String
deriving DecidableEq, Repr

/-- The four environment types `detect_environment` can report. -/
inductive EnvironmentType where
  | databricks_runtime
  | databricks_lakehouse_app
  | client_configured
  | unconfigured
deriving DecidableEq, Repr

/-- `_is_databricks_runtime`: any of the three env vars or two marker paths. -/
def is_databricks_runtime (e : EnvState) : Bool :=
  pyTruthy e.DATABRICKS_RUNTIME_VERSION || pyTruthy e.DATABRICKS_WORKSPACE_URL ||
    pyTruthy e.DATABRICKS_WORKSPACE_ID || e.databricks_driver_exists ||
    e.databricks_spark_exists

/-- `_is_databricks_lakehouse_app`: any of the three app env vars. -/
def is_databricks_lakehouse_app (e : EnvState) : Bool :=
  pyTruthy e.DATABRICKS_APP_ID || pyTruthy e.DATABRICKS_APP_NAME ||
    pyTruthy e.LAKEHOUSE_APP_MODE

/-- `_has_client_config`: a `.env` or `client_config.json` file exists. -/
def has_client_config (e : EnvState) : Bool :=
  e.env_file_exists || e.config_file_exists

/-- `detect_environment`: runtime, then lakehouse app, then client config,
else unconfigured. -/
def detect_environment (e : EnvState) : EnvironmentType :=
  if is_databricks_runtime e then .databricks_runtime
  else if is_databricks_lakehouse_app e then .databricks_lakehouse_app
  else if has_client_config e then .client_configured
  else .unconfigured

/-- Explicit connection parameters (the `connection_params` dict). -/
structure ConnectionParams where
  server_hostname : String
  http_path : String
  access_token : String
  ssl_verify : Bool
deriving DecidableEq, Repr

/-- The dict `get_connection_config` returns (`connection_params = none`
models the empty dict). -/
structure ConnectionConfig where
  use_automatic_auth : Bool
  connection_params : Option ConnectionParams
  requires_setup : Bool
deriving DecidableEq, Repr

/-- `host.replace("https://", "")`. -/
def stripHttps (s : String) : String := s.replace "https://" ""

/-- `EnvironmentDetector.get_connection_config`. -/
def get_connection_config (e : EnvState) : ConnectionConfig :=
  match detect_environment e with
  | .databricks_runtime =>
      { use_automatic_auth := true, connection_params := none, requires_setup := false }
  | .databricks_lakehouse_app =>
      { use_automatic_auth := true, connection_params := none, requires_setup := false }
  | .client_configured =>
      { use_automatic_auth := false
        connection_params := some
          { server_hostname := stripHttps (e.DATABRICKS_HOST.getD "")
            http_path := e.DATABRICKS_HTTP_PATH.getD ""
            access_token := e.DATABRICKS_TOKEN.getD ""
            ssl_verify := (e.DATABRICKS_SSL_VERIFY.getD "false").toLower == "true" }
        requires_setup := false }
  | .unconfigured =>
      { use_automatic_auth := false, connection_params := none, requires_setup := true }

/-- `dq_tracker.get_databricks_connection_params`: raises (`Except.error`)
when host, token and http path are not all truthy. -/
def get_databricks_connection_params (e : EnvState) :
    Except String (String × String × String) :=
  let host := stripHttps (e.DATABRICKS_HOST.getD "")
  let token := e.DATABRICKS_TOKEN.getD ""
  let http_path := e.DATABRICKS_HTTP_PATH.getD ""
  if host == "" || token == "" || http_path == "" then
    .error "Missing required Databricks connection parameters"
  else
    .ok (host, token, http_path)

end AutoDQ

namespace AutoDQ

/-! ## Theorems: coverage aggregator -/

/-- **C3.** Coverage Aggregator: the cell for a (table, column) pair equals
the number of distinct `Rule_Display_Name` values among the rows with that
`Table` and `Column` (`0` when the pair has no rows), and the band is
"blind spot" exactly when the count is `0`, "partial" exactly when it is
between `1` and `10` inclusive, and "well covered" exactly when it exceeds
`10`. -/
theorem coverage_cell_spec (records : List CoverageRecord) (t c : String) (n : ℕ) :
    coverageCount records t c = (rulesFor records t c).toFinset.card
    ∧ (rulesFor records t c = [] → coverageCount records t c = 0)
    ∧ (coverageBand n = .blindSpot ↔ n = 0)
    ∧ (coverageBand n = .midCoverage ↔ 1 ≤ n ∧ n ≤ 10)
    ∧ (coverageBand n = .wellCovered ↔ 10 < n) := by
  refine ⟨(List.card_toFinset _).symm, ?_, ?_, ?_, ?_⟩
  · intro h
    simp [coverageCount, h]
  · unfold coverageBand
    split
    · simp_all
    · split <;> simp_all
  · unfold coverageBand
    split
    · simp_all
    · split <;> simp_all <;> omega
  · unfold coverageBand
    split
    · simp_all
    · split <;> simp_all

/-- Witness for C3 at a concrete record set: the pair `("orders", "id")` has
rows with two distinct rules (one rule repeated), so the cell is `2`; the
banding at the boundary counts `0`, `10`, `11` is blind spot / partial /
well covered. -/
theorem coverage_cell_spec_witness :
    coverageCount
        [⟨"orders", "id", "No Nulls"⟩, ⟨"orders", "id", "Unique Values"⟩,
         ⟨"orders", "id", "No Nulls"⟩, ⟨"orders", "qty", "Range OK"⟩]
        "orders" "id" = 2
    ∧ coverageBand 0 = .blindSpot
    ∧ coverageBand 10 = .midCoverage
    ∧ coverageBand 11 = .wellCovered := by
  have h10 := (coverage_cell_spec [] "t" "c" 10).2.2.2.1
  have h11 := (coverage_cell_spec [] "t" "c" 11).2.2.2.2
  have h0 := (coverage_cell_spec [] "t" "c" 0).2.2.1
  exact ⟨by decide, h0.mpr rfl, h10.mpr (by decide), h11.mpr (by decide)⟩

/-! ## Theorems: alert feed severity -/

/-- **C9.** Alert Feed severity: every row of the feed built from failed
records has `Severity` equal to `"Critical"` exactly when its rule display
name is one of `"No Nulls"`, `"Unique Values"`, `"Primary Key Present"`,
`"Foreign Key Valid"`, and equal to `"Warning"` exactly otherwise. -/
theorem alert_severity_spec (df : List ValidationRecord) :
    ∀ a ∈ alertFeed df,
      (a.Severity = "Critical" ↔
        (a.Rule = "No Nulls" ∨ a.Rule = "Unique Values" ∨
         a.Rule = "Primary Key Present" ∨ a.Rule = "Foreign Key Valid"))
      ∧ (a.Severity = "Warning" ↔
        ¬(a.Rule = "No Nulls" ∨ a.Rule = "Unique Values" ∨
          a.Rule = "Primary Key Present" ∨ a.Rule = "Foreign Key Valid")) := by
  intro a ha
  simp only [alertFeed, List.mem_map, List.mem_filter] at ha
  obtain ⟨r, -, rfl⟩ := ha
  dsimp only
  have hmem : r.Rule_Display_Name ∈ critical_rules ↔
      (r.Rule_Display_Name = "No Nulls" ∨ r.Rule_Display_Name = "Unique Values" ∨
       r.Rule_Display_Name = "Primary Key Present" ∨
       r.Rule_Display_Name = "Foreign Key Valid") := by
    simp [critical_rules]
  by_cases h : r.Rule_Display_Name ∈ critical_rules
  · rw [if_pos h]
    rw [hmem] at h
    exact ⟨⟨fun _ => h, fun _ => rfl⟩,
      ⟨fun hw => absurd hw (by decide), fun hn => absurd h hn⟩⟩
  · rw [if_neg h]
    rw [hmem] at h
    exact ⟨⟨fun hw => absurd hw (by decide), fun hd => absurd hd h⟩,
      ⟨fun _ => h, fun _ => rfl⟩⟩

/-- Witness for C9 at a concrete frame: a failed "No Nulls" record is in the
feed and is Critical (not Warning). -/
theorem alert_severity_spec_witness :
    (⟨"2024-01-01 10:00:00", "orders", "No Nulls", "Failed", "null found",
      "Critical"⟩ : AlertRow).Severity = "Critical" := by
  have h := alert_severity_spec
      [⟨"2024-01-01 10:00:00", "orders", "id", "No Nulls", "Failed", "null found"⟩]
      ⟨"2024-01-01 10:00:00", "orders", "No Nulls", "Failed", "null found",
       "Critical"⟩ (by decide)
  exact h.1.mpr (Or.inl rfl)

/-! ## Theorems: z-score outlier flagger -/

/-- A row extracts to values exactly when it is the `some`-image of them. -/
theorem seqCells_eq_some {r : List NumCell} {v : List ℚ} :
    seqCells r = some v ↔ r = v.map some := by
  induction r generalizing v with
  | nil => cases v <;> simp [seqCells]
  | cons hd tl ih =>
    cases hd with
    | none => cases v <;> simp [seqCells]
    | some q =>
      cases v with
      | nil => simp [seqCells]
      | cons w ws =>
        simp only [seqCells, Option.map_eq_some', ih, List.map_cons, List.cons.injEq]
        aesop

/-- Membership in the scored subset: row `i` is scored with values `v` exactly
when row `i` of the input is `v` with every cell non-null. -/
theorem mem_dropnaRows {t : List (List NumCell)} {i : ℕ} {v : List ℚ} :
    (i, v) ∈ dropnaRows t ↔ t[i]? = some (v.map some) := by
  simp only [dropnaRows, List.mem_filterMap, Option.map_eq_some', Prod.exists]
  constructor
  · rintro ⟨j, r, hmem, w, hw, heq⟩
    obtain ⟨rfl, rfl⟩ := Prod.mk.injEq _ _ _ _ |>.mp heq
    rw [List.mk_mem_enum_iff_getElem?] at hmem
    rw [hmem, seqCells_eq_some.mp hw]
  · intro h
    exact ⟨i, v.map some, List.mk_mem_enum_iff_getElem?.mpr h, v,
      seqCells_eq_some.mpr rfl, rfl⟩

/-- A row has all cells non-null exactly when it is a `some`-image. -/
theorem all_isSome_iff_map {r : List NumCell} :
    r.all Option.isSome = true ↔ ∃ v : List ℚ, r = v.map some := by
  induction r with
  | nil => simp
  | cons hd tl ih =>
    cases hd with
    | none =>
      simp only [List.all_cons, Option.isSome_none, Bool.false_and,
        Bool.false_eq_true, false_iff]
      rintro ⟨v, hv⟩
      cases v <;> simp at hv
    | some q =>
      simp only [List.all_cons, Option.isSome_some, Bool.true_and, ih]
      constructor
      · rintro ⟨v, rfl⟩
        exact ⟨q :: v, rfl⟩
      · rintro ⟨v, hv⟩
        cases v with
        | nil => simp at hv
        | cons w ws =>
          simp only [List.map_cons, List.cons.injEq] at hv
          exact ⟨ws, hv.2⟩

/-- The population variance is nonnegative. -/
theorem listVar_nonneg (l : List ℚ) : 0 ≤ listVar l := by
  unfold listVar
  apply div_nonneg
  · apply List.sum_nonneg
    intro x hx
    simp only [List.mem_map] at hx
    obtain ⟨y, -, rfl⟩ := hx
    positivity
  · exact Nat.cast_nonneg _

/-- The squared transcription of the z-score test agrees with the literal
`|(x - mean)| / √var > 3` over the reals (where `√0 = 0` and division by
zero is zero, so the zero-variance NaN convention also compares false). -/
theorem zFlagged_iff_real (l : List ℚ) (x : ℚ) :
    zFlagged l x = true ↔
      listVar l ≠ 0 ∧
      (3 : ℝ) < |(x : ℝ) - (listMean l : ℝ)| / Real.sqrt ((listVar l : ℝ)) := by
  unfold zFlagged
  rw [Bool.and_eq_true, decide_eq_true_eq, decide_eq_true_eq]
  constructor
  · rintro ⟨hv, hlt⟩
    refine ⟨hv, ?_⟩
    have hvpos : (0 : ℚ) < listVar l := lt_of_le_of_ne (listVar_nonneg l) (Ne.symm hv)
    have hvR : (0 : ℝ) < ((listVar l : ℚ) : ℝ) := by exact_mod_cast hvpos
    have hs : 0 < Real.sqrt ((listVar l : ℝ)) := Real.sqrt_pos.mpr hvR
    rw [lt_div_iff₀ hs]
    have h9 : (9 : ℝ) * ((listVar l : ℚ) : ℝ) < ((x : ℝ) - (listMean l : ℝ)) ^ 2 := by
      exact_mod_cast hlt
    have hsq : (3 * Real.sqrt ((listVar l : ℝ))) ^ 2 <
        |(x : ℝ) - (listMean l : ℝ)| ^ 2 := by
      rw [mul_pow, Real.sq_sqrt hvR.le, sq_abs]
      calc (3 : ℝ) ^ 2 * ((listVar l : ℚ) : ℝ)
          = 9 * ((listVar l : ℚ) : ℝ) := by norm_num
        _ < _ := h9
    exact (pow_lt_pow_iff_left₀ (by positivity) (abs_nonneg _) (by norm_num)).mp hsq
  · rintro ⟨hv, hlt⟩
    refine ⟨hv, ?_⟩
    have hvpos : (0 : ℚ) < listVar l := lt_of_le_of_ne (listVar_nonneg l) (Ne.symm hv)
    have hvR : (0 : ℝ) < ((listVar l : ℚ) : ℝ) := by exact_mod_cast hvpos
    have hs : 0 < Real.sqrt ((listVar l : ℝ)) := Real.sqrt_pos.mpr hvR
    rw [lt_div_iff₀ hs] at hlt
    have hsq := pow_lt_pow_left₀ hlt (by positivity) (n := 2) (by norm_num)
    rw [mul_pow, Real.sq_sqrt hvR.le, sq_abs] at hsq
    have h9 : (9 : ℝ) * ((listVar l : ℚ) : ℝ) < ((x : ℝ) - (listMean l : ℝ)) ^ 2 := by
      calc (9 : ℝ) * ((listVar l : ℚ) : ℝ)
          = 3 ^ 2 * ((listVar l : ℚ) : ℝ) := by norm_num
        _ < _ := hsq
    exact_mod_cast h9

/-- Indexing into the `some`-image of a value row. -/
theorem getD_map_some (v : List ℚ) (c : ℕ) (hc : c < v.length) :
    (v.map some).getD c none = some (v.getD c 0) := by
  have h : v[c]? = some v[c] := List.getElem?_eq_getElem hc
  simp [List.getD_eq_getElem?_getD, List.getElem?_map, h]

/-- Membership in the z-score mask, reduced to the scored subset. -/
theorem mem_zscoreMask {k : ℕ} {t : List (List NumCell)} {i : ℕ} {b : Bool} :
    (i, b) ∈ zscoreMask k t ↔
      ∃ v : List ℚ, t[i]? = some (v.map some) ∧ b = rowFlagged k (scoredValues t) v := by
  simp only [zscoreMask, List.mem_map, Prod.exists]
  constructor
  · rintro ⟨j, v, hmem, heq⟩
    obtain ⟨rfl, rfl⟩ := Prod.mk.injEq _ _ _ _ |>.mp heq
    exact ⟨v, mem_dropnaRows.mp hmem, rfl⟩
  · rintro ⟨v, hv, rfl⟩
    exact ⟨i, v, mem_dropnaRows.mpr hv, rfl⟩

/-- **C1.** Outlier Flagger, z-score method: for a table whose rows have the
width of the (non-empty) column selection, the mask's domain is exactly the
rows with no null in any selected column (rows with a null are absent, not
marked `false`), and a row of the domain is flagged exactly when some
selected column's value `q` has `|q - mean| / √variance > 3`, the mean and
population variance being those of the column over the scored subset, a
zero-variance column never flagging. -/
theorem zscore_mask_spec (k : ℕ) (t : List (List NumCell))
    (hk : 0 < k) (hshape : ∀ r ∈ t, r.length = k) :
    (∀ i : ℕ,
      (∃ b, (i, b) ∈ zscoreMask k t) ↔
      (∃ r, t[i]? = some r ∧ r.all Option.isSome = true))
    ∧ (∀ i b, (i, b) ∈ zscoreMask k t →
        (b = true ↔ ∃ c < k, ∃ q : ℚ,
          (t.getD i []).getD c none = some q ∧
          listVar (colValues (scoredValues t) c) ≠ 0 ∧
          (3 : ℝ) < |(q : ℝ) - (listMean (colValues (scoredValues t) c) : ℝ)| /
            Real.sqrt ((listVar (colValues (scoredValues t) c) : ℝ)))) := by
  clear hk
  constructor
  · intro i
    constructor
    · rintro ⟨b, hb⟩
      obtain ⟨v, hv, -⟩ := mem_zscoreMask.mp hb
      exact ⟨v.map some, hv, all_isSome_iff_map.mpr ⟨v, rfl⟩⟩
    · rintro ⟨r, hr, hall⟩
      obtain ⟨v, rfl⟩ := all_isSome_iff_map.mp hall
      exact ⟨rowFlagged k (scoredValues t) v, mem_zscoreMask.mpr ⟨v, hr, rfl⟩⟩
  · intro i b hb
    obtain ⟨v, hv, rfl⟩ := mem_zscoreMask.mp hb
    have hvlen : v.length = k := by
      have hmem : v.map some ∈ t := by
        obtain ⟨hlt, heq⟩ := List.getElem?_eq_some.mp hv
        exact heq ▸ List.getElem_mem hlt
      have := hshape _ hmem
      simpa using this
    have hgetD : t.getD i [] = v.map some := by
      rw [List.getD_eq_getElem?_getD, hv]
      rfl
    rw [hgetD]
    unfold rowFlagged
    rw [List.any_eq_true]
    constructor
    · rintro ⟨c, hc, hflag⟩
      rw [List.mem_range] at hc
      refine ⟨c, hc, v.getD c 0, getD_map_some v c (hvlen ▸ hc), ?_⟩
      exact (zFlagged_iff_real _ _).mp hflag
    · rintro ⟨c, hc, q, hq, hvar, hlt⟩
      rw [getD_map_some v c (hvlen ▸ hc)] at hq
      obtain rfl : q = v.getD c 0 := (Option.some.injEq _ _ ▸ hq).symm
      exact ⟨c, List.mem_range.mpr hc, (zFlagged_iff_real _ _).mpr ⟨hvar, hlt⟩⟩

/-- Witness for C1: one selected column, eleven zeros, one row with a null,
and one value `60`.  The value-`60` row (original index `12`) is in the
mask's domain; the null row (original index `11`) is absent from it. -/
theorem zscore_mask_spec_witness :
    (∃ b, (12, b) ∈ zscoreMask 1
      [[some 0], [some 0], [some 0], [some 0], [some 0], [some 0], [some 0],
       [some 0], [some 0], [some 0], [some 0], [none], [some 60]])
    ∧ ¬ ∃ b, (11, b) ∈ zscoreMask 1
      [[some 0], [some 0], [some 0], [some 0], [some 0], [some 0], [some 0],
       [some 0], [some 0], [some 0], [some 0], [none], [some 60]] := by
  have h := zscore_mask_spec 1
      [[some 0], [some 0], [some 0], [some 0], [some 0], [some 0], [some 0],
       [some 0], [some 0], [some 0], [some 0], [none], [some 60]]
      (by decide) (by decide)
  constructor
  · exact (h.1 12).mpr ⟨[some 60], by decide, by decide⟩
  · rintro ⟨b, hb⟩
    obtain ⟨r, hr, hall⟩ := (h.1 11).mp ⟨b, hb⟩
    rw [show ((([[some 0], [some 0], [some 0], [some 0], [some 0], [some 0], [some 0],
       [some 0], [some 0], [some 0], [some 0], [none], [some 60]] :
       List (List NumCell)))[11]? = some [none]) from by decide] at hr
    obtain rfl := Option.some.inj hr
    exact absurd hall (by decide)

/-- The variance of a constant column is zero. -/
theorem listVar_of_const {l : List ℚ} (h : ∀ a ∈ l, ∀ b ∈ l, a = b) :
    listVar l = 0 := by
  cases l with
  | nil => simp [listVar, listMean]
  | cons q rest =>
    have hall : ∀ a ∈ q :: rest, a = q := fun a ha =>
      h a ha q (List.mem_cons_self q rest)
    have hsum : (q :: rest).sum = (q :: rest).length • q :=
      List.sum_eq_card_nsmul _ _ hall
    have hlen : ((q :: rest).length : ℚ) ≠ 0 := by
      simp only [List.length_cons]
      push_cast
      exact Nat.cast_add_one_ne_zero rest.length
    have hmean : listMean (q :: rest) = q := by
      unfold listMean
      rw [hsum, nsmul_eq_mul, mul_comm, mul_div_assoc, div_self hlen, mul_one]
    unfold listVar
    rw [hmean]
    have hz : ((q :: rest).map fun x => (x - q) ^ 2).sum = 0 := by
      apply List.sum_eq_zero
      intro x hx
      simp only [List.mem_map] at hx
      obtain ⟨y, hy, rfl⟩ := hx
      rw [hall y hy]
      ring
    rw [hz, zero_div]

/-- **C2.** Outlier Flagger, z-score method: a zero-variance column (all
values identical over the scored subset) never causes any value to be
flagged; and when every selected column is constant over the scored subset,
the mask flags no row at all. -/
theorem zscore_constant_spec (k : ℕ) (t : List (List NumCell))
    (hconst : ∀ c ∈ List.range k, ∀ x ∈ colValues (scoredValues t) c,
        ∀ y ∈ colValues (scoredValues t) c, x = y) :
    (∀ (l : List ℚ) (x : ℚ), (∀ a ∈ l, ∀ b ∈ l, a = b) → zFlagged l x = false)
    ∧ ∀ p ∈ zscoreMask k t, p.2 = false := by
  have hzf : ∀ (l : List ℚ) (x : ℚ), (∀ a ∈ l, ∀ b ∈ l, a = b) →
      zFlagged l x = false := by
    intro l x hl
    unfold zFlagged
    rw [listVar_of_const hl]
    simp
  refine ⟨hzf, ?_⟩
  rintro ⟨i, b⟩ hp
  obtain ⟨v, -, rfl⟩ := mem_zscoreMask.mp hp
  show rowFlagged k (scoredValues t) v = false
  unfold rowFlagged
  rw [List.any_eq_false]
  intro c hc
  rw [hzf _ _ (hconst c hc)]
  exact Bool.false_ne_true

/-- Witness for C2: on the constant column `[5, 5, 5]` the z-score test
flags nothing — not even the value `7`. -/
theorem zscore_constant_spec_witness :
    zFlagged [5, 5, 5] 7 = false :=
  (zscore_constant_spec 1 [[some 5], [some 5], [some 5]] (by decide)).1
    [5, 5, 5] 7 (by decide)

/-! ## Theorems: tabular preprocessor -/

/-- Lower-casing is idempotent on one code point. -/
theorem lowerCode_lowerCode (n : ℕ) : lowerCode (lowerCode n) = lowerCode n := by
  unfold lowerCode
  split
  · rw [if_neg (by omega)]
  · rfl

/-- Lower-casing neither creates nor destroys whitespace. -/
theorem isSpaceCode_lowerCode (n : ℕ) : isSpaceCode (lowerCode n) = isSpaceCode n := by
  unfold lowerCode isSpaceCode
  split
  · exact decide_eq_decide.mpr (by omega)
  · rfl

/-- `str.lower` is idempotent. -/
theorem pyLower_pyLower (s : PyStr) : pyLower (pyLower s) = pyLower s := by
  unfold pyLower
  rw [List.map_map]
  exact List.map_congr_left fun n _ => lowerCode_lowerCode n

/-- `str.strip` and `str.lower` commute. -/
theorem pyStrip_pyLower (s : PyStr) : pyStrip (pyLower s) = pyLower (pyStrip s) := by
  have hfun : isSpaceCode ∘ lowerCode = isSpaceCode := funext isSpaceCode_lowerCode
  unfold pyStrip pyLower List.rdropWhile
  rw [List.dropWhile_map, hfun, ← List.map_reverse, List.dropWhile_map, hfun,
    ← List.map_reverse]

/-- The first code point of a stripped string is not whitespace. -/
theorem head_pyStripped {s : PyStr}
    (h : 0 < ((s.dropWhile isSpaceCode).rdropWhile isSpaceCode).length) :
    ¬ isSpaceCode (((s.dropWhile isSpaceCode).rdropWhile isSpaceCode).get ⟨0, h⟩) = true := by
  obtain ⟨t, ht⟩ := List.rdropWhile_prefix isSpaceCode (s.dropWhile isSpaceCode)
  have hlen : 0 < (s.dropWhile isSpaceCode).length := by
    rw [← ht]
    simp only [List.length_append]
    omega
  have h0 : ((s.dropWhile isSpaceCode).rdropWhile isSpaceCode)[0]? =
      (s.dropWhile isSpaceCode)[0]? := by
    conv_rhs => rw [← ht]
    rw [List.getElem?_append, if_pos h]
  rw [List.getElem?_eq_getElem h, List.getElem?_eq_getElem hlen] at h0
  have heq : ((s.dropWhile isSpaceCode).rdropWhile isSpaceCode).get ⟨0, h⟩ =
      (s.dropWhile isSpaceCode).get ⟨0, hlen⟩ := by
    simpa [List.get_eq_getElem] using Option.some.inj h0
  rw [heq]
  exact List.dropWhile_get_zero_not _ _ hlen

/-- `str.strip` is idempotent. -/
theorem pyStrip_pyStrip (s : PyStr) : pyStrip (pyStrip s) = pyStrip s := by
  unfold pyStrip
  have h1 : ((s.dropWhile isSpaceCode).rdropWhile isSpaceCode).dropWhile isSpaceCode =
      (s.dropWhile isSpaceCode).rdropWhile isSpaceCode := by
    rw [List.dropWhile_eq_self_iff]
    intro hl
    exact head_pyStripped hl
  rw [h1, List.rdropWhile_idempotent]

/-- A `filterMap` whose function keeps every present element is the identity. -/
theorem filterMap_eq_self_of {α : Type} {f : α → Option α} {l : List α}
    (h : ∀ a ∈ l, f a = some a) : l.filterMap f = l := by
  induction l with
  | nil => rfl
  | cons hd tl ih =>
    rw [List.filterMap_cons, h hd (List.mem_cons_self hd tl),
      ih fun a ha => h a (List.mem_cons_of_mem hd ha)]

/-- **C4.** Tabular Preprocessor: every retained output row has a
`Run_Timestamp` that parsed to a valid instant (rows with an unparsable
timestamp are dropped), and comes from an input row whose timestamp parses
and whose `Table.Column` is the lower-cased stripped table name, then `'.'`
(code point 46), then the stripped column name. -/
theorem preprocess_spec (parse : PyStr → Option ℤ) (df : List FrameRow) :
    ∀ out ∈ preprocess parse df,
      (∃ ts : ℤ, out.Run_Timestamp = .parsed ts ∧
        to_datetime parse out.Run_Timestamp = some ts)
      ∧ ∃ r ∈ df, to_datetime parse r.Run_Timestamp ≠ none
          ∧ out.Table = pyLower (pyStrip r.Table)
          ∧ out.Column = pyStrip r.Column
          ∧ out.TableColumn = pyLower (pyStrip r.Table) ++ 46 :: pyStrip r.Column := by
  intro out hout
  simp only [preprocess, List.mem_filterMap] at hout
  obtain ⟨r, hr, hf⟩ := hout
  revert hf
  cases hts : to_datetime parse r.Run_Timestamp with
  | none => simp
  | some ts =>
    intro hf
    simp only [Option.some.injEq] at hf
    subst hf
    exact ⟨⟨ts, rfl, rfl⟩, r, hr, by rw [hts]; exact Option.some_ne_none ts,
      rfl, rfl, rfl⟩

/-- Witness for C4: a frame with the row
`{Table: "Orders ", Column: " id", Run_Timestamp: "2"}` (as code points)
under a parse function accepting exactly `"2"`; its retained row derives
`Table.Column = "orders.id"`, while a second row with timestamp `"3"` is
dropped. -/
theorem preprocess_spec_witness :
    ∃ r ∈ [(⟨[79, 114, 100, 101, 114, 115, 32], [32, 105, 100], [],
             .raw [50]⟩ : FrameRow),
           ⟨[79, 114, 100, 101, 114, 115, 32], [32, 105, 100], [], .raw [51]⟩],
      to_datetime (fun s => if s = [50] then some (0 : ℤ) else none) r.Run_Timestamp ≠ none
      ∧ ([111, 114, 100, 101, 114, 115] : PyStr) = pyLower (pyStrip r.Table)
      ∧ ([105, 100] : PyStr) = pyStrip r.Column
      ∧ ([111, 114, 100, 101, 114, 115, 46, 105, 100] : PyStr) =
          pyLower (pyStrip r.Table) ++ 46 :: pyStrip r.Column := by
  have h := preprocess_spec (fun s => if s = [50] then some (0 : ℤ) else none)
      [⟨[79, 114, 100, 101, 114, 115, 32], [32, 105, 100], [], .raw [50]⟩,
       ⟨[79, 114, 100, 101, 114, 115, 32], [32, 105, 100], [], .raw [51]⟩]
      ⟨[111, 114, 100, 101, 114, 115], [105, 100],
       [111, 114, 100, 101, 114, 115, 46, 105, 100], .parsed 0⟩ (by decide)
  exact h.2

/-- **C5.** Tabular Preprocessor is idempotent: applying the normalize steps
twice yields exactly the table of applying them once, for every input frame
and every parse function (stripping and lower-casing are idempotent,
parsing is the identity on already-parsed timestamps). -/
theorem preprocess_idempotent (parse : PyStr → Option ℤ) (df : List FrameRow) :
    preprocess parse (preprocess parse df) = preprocess parse df := by
  unfold preprocess
  apply filterMap_eq_self_of
  intro a ha
  simp only [List.mem_filterMap] at ha
  obtain ⟨r, -, hf⟩ := ha
  revert hf
  cases hts : to_datetime parse r.Run_Timestamp with
  | none => simp
  | some ts =>
    intro hf
    simp only [Option.some.injEq] at hf
    subst hf
    simp only [to_datetime]
    have htbl : pyLower (pyStrip (pyLower (pyStrip r.Table))) =
        pyLower (pyStrip r.Table) := by
      rw [pyStrip_pyLower, pyStrip_pyStrip, pyLower_pyLower]
    have hcol : pyStrip (pyStrip r.Column) = pyStrip r.Column := pyStrip_pyStrip _
    rw [htbl, hcol]

/-! ## Theorems: action tracker import -/

/-- The Load handler in one equation: all three branches (empty fetch,
empty ledger, merge) append exactly the fresh entries whose joined key
string is absent from the existing entries' joined key strings. -/
theorem loadFailedRecords_eq (tracker : List TrackerRow) (failed : List FailedRecord) :
    loadFailedRecords tracker failed =
      tracker ++ (failed.map toTrackerRow).filter fun e =>
        !((tracker.map fun x => joinKey (rowKey x)).contains (joinKey (rowKey e))) := by
  unfold loadFailedRecords
  by_cases hf : failed.isEmpty
  · rw [if_pos hf]
    rw [List.isEmpty_iff] at hf
    subst hf
    simp
  · rw [if_neg hf]
    by_cases ht : tracker.isEmpty
    · rw [if_pos ht]
      rw [List.isEmpty_iff] at ht
      subst ht
      simp
    · rw [if_neg ht]

/-- **C6 counterexample.** The handler compares `"|"`-joined key strings,
not key tuples.  With an existing entry keyed `("a|b", "c", "r", "1")` and a
fresh record keyed `("a", "b|c", "r", "1")`, the two joined strings collide,
so the fresh record — whose composite key is *not* among the existing
composite keys, hence in the symmetric set difference — is not appended:
the ledger is returned unchanged, refuting the claim as stated. -/
theorem import_symmdiff_counterexample :
    loadFailedRecords
        [⟨"a|b", "c", "r", "1", "v", "Open", "", ""⟩]
        [⟨"a", "b|c", "r", "1", "v"⟩] =
      [⟨"a|b", "c", "r", "1", "v", "Open", "", ""⟩]
    ∧ recKey ⟨"a", "b|c", "r", "1", "v"⟩ ∉
        [(⟨"a|b", "c", "r", "1", "v", "Open", "", ""⟩ : TrackerRow)].map rowKey := by
  constructor
  · rfl
  · decide

/-- **C6 (amended).** Action Tracker import: the import appends exactly the
fresh entries whose `"|"`-joined composite key string is absent from the
existing entries' joined key strings (for key fields free of `"|"` this is
the composite-key set difference), each appended entry having default
status Open and empty assignee and notes, and no existing entry is modified
or removed (the result extends the ledger on the right). -/
theorem import_appends_only_new (tracker : List TrackerRow) (failed : List FailedRecord) :
    loadFailedRecords tracker failed =
      tracker ++ ((failed.map toTrackerRow).filter fun e =>
        !((tracker.map fun x => joinKey (rowKey x)).contains (joinKey (rowKey e))))
    ∧ ∀ e ∈ (failed.map toTrackerRow).filter fun e =>
        !((tracker.map fun x => joinKey (rowKey x)).contains (joinKey (rowKey e))),
      e.Action_Status = "Open" ∧ e.Assignee = "" ∧ e.Notes = "" := by
  refine ⟨loadFailedRecords_eq tracker failed, ?_⟩
  intro e he
  have hmem := List.mem_of_mem_filter he
  simp only [List.mem_map] at hmem
  obtain ⟨f, -, rfl⟩ := hmem
  exact ⟨rfl, rfl, rfl⟩

/-- Witness for C6 (amended): importing one fresh record into an empty
ledger appends exactly that entry, with the default status and empty
assignee and notes. -/
theorem import_appends_only_new_witness :
    loadFailedRecords [] [⟨"t", "c", "No Nulls", "7", "x"⟩] =
      [toTrackerRow ⟨"t", "c", "No Nulls", "7", "x"⟩]
    ∧ (toTrackerRow ⟨"t", "c", "No Nulls", "7", "x"⟩).Action_Status = "Open"
    ∧ (toTrackerRow ⟨"t", "c", "No Nulls", "7", "x"⟩).Assignee = ""
    ∧ (toTrackerRow ⟨"t", "c", "No Nulls", "7", "x"⟩).Notes = "" := by
  have h := import_appends_only_new [] [⟨"t", "c", "No Nulls", "7", "x"⟩]
  refine ⟨?_, h.2 (toTrackerRow ⟨"t", "c", "No Nulls", "7", "x"⟩) (by decide)⟩
  rw [h.1]
  rfl

/-- The composite key is preserved by entry creation. -/
theorem rowKey_toTrackerRow (f : FailedRecord) : rowKey (toTrackerRow f) = recKey f := rfl

/-- `drop_duplicates` yields pairwise-distinct composite keys, none of them
previously seen. -/
theorem drop_duplicates_spec (l : List FailedRecord) (seen : List CompositeKey) :
    ((drop_duplicates l seen).map recKey).Nodup
    ∧ ∀ r ∈ drop_duplicates l seen, recKey r ∉ seen := by
  induction l generalizing seen with
  | nil => exact ⟨List.nodup_nil, by simp [drop_duplicates]⟩
  | cons r rest ih =>
    by_cases h : recKey r ∈ seen
    · simpa [drop_duplicates, h] using ih seen
    · simp only [drop_duplicates, if_neg h]
      obtain ⟨ihn, ihs⟩ := ih (recKey r :: seen)
      refine ⟨?_, ?_⟩
      · simp only [List.map_cons, List.nodup_cons]
        refine ⟨?_, ihn⟩
        intro hmem
        simp only [List.mem_map] at hmem
        obtain ⟨x, hx, hkey⟩ := hmem
        exact ihs x hx (hkey ▸ List.mem_cons_self _ _)
      · intro x hx
        rcases List.mem_cons.mp hx with rfl | hx'
        · exact h
        · intro hseen
          exact ihs x hx' (List.mem_cons_of_mem _ hseen)

/-- **C7.** Action Tracker ledger invariant: importing a fetched (hence
key-deduplicated) record set into a ledger with pairwise-distinct composite
keys leaves the composite keys pairwise distinct; and importing the same
fetched set a second time returns the ledger unchanged (so its size is
unchanged). -/
theorem import_dedup_spec (tracker : List TrackerRow) (raw : List FailedRecord)
    (hnd : (tracker.map rowKey).Nodup) :
    ((loadFailedRecords tracker (fetch_failed_records raw)).map rowKey).Nodup
    ∧ loadFailedRecords (loadFailedRecords tracker (fetch_failed_records raw))
        (fetch_failed_records raw) =
      loadFailedRecords tracker (fetch_failed_records raw) := by
  have hFnodup : ((fetch_failed_records raw).map recKey).Nodup :=
    (drop_duplicates_spec raw []).1
  constructor
  · rw [loadFailedRecords_eq, List.map_append, List.nodup_append]
    refine ⟨hnd, ?_, ?_⟩
    · have hsub : List.Sublist
          ((((fetch_failed_records raw).map toTrackerRow).filter fun e =>
            !((tracker.map fun x => joinKey (rowKey x)).contains
              (joinKey (rowKey e)))).map rowKey)
          (((fetch_failed_records raw).map toTrackerRow).map rowKey) :=
        List.Sublist.map rowKey (List.filter_sublist _)
      have heq : (((fetch_failed_records raw).map toTrackerRow).map rowKey) =
          (fetch_failed_records raw).map recKey := by
        rw [List.map_map]
        rfl
      rw [heq] at hsub
      exact hFnodup.sublist hsub
    · intro k hk1 hk2
      simp only [List.mem_map] at hk1 hk2
      obtain ⟨x, hx, rfl⟩ := hk1
      obtain ⟨e, he, hkey⟩ := hk2
      have hef := List.of_mem_filter he
      rw [Bool.not_eq_true'] at hef
      have hmem : joinKey (rowKey e) ∈ tracker.map fun x => joinKey (rowKey x) := by
        simp only [List.mem_map]
        exact ⟨x, hx, by rw [hkey]⟩
      have hct : (tracker.map fun x => joinKey (rowKey x)).contains
          (joinKey (rowKey e)) = true := List.elem_iff.mpr hmem
      rw [hct] at hef
      exact absurd hef (by decide)
  · rw [loadFailedRecords_eq (loadFailedRecords tracker (fetch_failed_records raw))]
    have hnil : (((fetch_failed_records raw).map toTrackerRow).filter fun e =>
        !(((loadFailedRecords tracker (fetch_failed_records raw)).map fun x =>
            joinKey (rowKey x)).contains (joinKey (rowKey e)))) = [] := by
      apply List.filter_eq_nil_iff.mpr
      intro e he
      have hc2 : ((loadFailedRecords tracker (fetch_failed_records raw)).map fun x =>
          joinKey (rowKey x)).contains (joinKey (rowKey e)) = true := by
        apply List.elem_iff.mpr
        rw [loadFailedRecords_eq tracker (fetch_failed_records raw), List.map_append]
        by_cases hc : joinKey (rowKey e) ∈ tracker.map fun x => joinKey (rowKey x)
        · exact List.mem_append_left _ hc
        · apply List.mem_append_right
          simp only [List.mem_map]
          refine ⟨e, ?_, rfl⟩
          apply List.mem_filter.mpr
          refine ⟨he, ?_⟩
          rw [Bool.not_eq_true']
          rcases Bool.eq_false_or_eq_true
              ((tracker.map fun x => joinKey (rowKey x)).contains (joinKey (rowKey e)))
            with hcc | hcc
          · exact absurd (List.elem_iff.mp hcc) hc
          · exact hcc
      rw [hc2]
      decide
    rw [hnil, List.append_nil]

/-- Witness for C7: importing a fetch that contained a duplicated key into
an empty ledger leaves the ledger's composite keys pairwise distinct. -/
theorem import_dedup_spec_witness :
    ((loadFailedRecords []
        (fetch_failed_records
          [⟨"t", "c", "No Nulls", "1", "v"⟩, ⟨"t", "c", "No Nulls", "1", "w"⟩,
           ⟨"t", "c", "Range OK", "2", "v"⟩])).map rowKey).Nodup :=
  (import_dedup_spec []
      [⟨"t", "c", "No Nulls", "1", "v"⟩, ⟨"t", "c", "No Nulls", "1", "w"⟩,
       ⟨"t", "c", "Range OK", "2", "v"⟩] (by decide)).1

/-- A projection untouched by a status overwrite is preserved row-wise by
the bulk action when the assignee choice is empty. -/
theorem applyToSelected_proj {β : Type} (proj : TrackerRow → β)
    (hproj : ∀ e s, proj { e with Action_Status := s, Assignee := e.Assignee } = proj e)
    (tracker : List TrackerRow) (selected : List ℕ) (bulk_status : String) :
    (applyToSelected tracker selected bulk_status "").map proj = tracker.map proj := by
  unfold applyToSelected
  rw [List.map_map]
  conv_rhs => rw [← List.enum_map_snd tracker, List.map_map]
  apply List.map_congr_left
  intro p hp
  simp only [Function.comp_apply]
  split
  · have hassign : (if ("" : String) ≠ "" then "" else p.2.Assignee) = p.2.Assignee :=
      if_neg (by simp)
    rw [hassign]
    exact hproj p.2 _
  · rfl

/-- **C10.** Action Tracker bulk action: Apply-to-Selected with the empty
string as assignee leaves every entry's `Assignee` (and every other field
except `Action_Status`) unchanged — it can never clear an existing
assignee — and entries outside the filtered subset are unchanged in all
fields. -/
theorem apply_selected_empty_assignee (tracker : List TrackerRow) (selected : List ℕ)
    (bulk_status : String) :
    ((applyToSelected tracker selected bulk_status "").map fun e => e.Assignee) =
      (tracker.map fun e => e.Assignee)
    ∧ ((applyToSelected tracker selected bulk_status "").map fun e => e.Table) =
      (tracker.map fun e => e.Table)
    ∧ ((applyToSelected tracker selected bulk_status "").map fun e => e.Column) =
      (tracker.map fun e => e.Column)
    ∧ ((applyToSelected tracker selected bulk_status "").map fun e => e.Rule_Display_Name) =
      (tracker.map fun e => e.Rule_Display_Name)
    ∧ ((applyToSelected tracker selected bulk_status "").map fun e => e.Failed_Row_ID) =
      (tracker.map fun e => e.Failed_Row_ID)
    ∧ ((applyToSelected tracker selected bulk_status "").map fun e => e.Failed_Value) =
      (tracker.map fun e => e.Failed_Value)
    ∧ ((applyToSelected tracker selected bulk_status "").map fun e => e.Notes) =
      (tracker.map fun e => e.Notes)
    ∧ ∀ i : ℕ, i ∉ selected →
        (applyToSelected tracker selected bulk_status "")[i]? = tracker[i]? := by
  refine ⟨applyToSelected_proj (fun e => e.Assignee) (fun e s => rfl) tracker selected bulk_status,
    applyToSelected_proj (fun e => e.Table) (fun e s => rfl) tracker selected bulk_status,
    applyToSelected_proj (fun e => e.Column) (fun e s => rfl) tracker selected bulk_status,
    applyToSelected_proj (fun e => e.Rule_Display_Name) (fun e s => rfl) tracker selected bulk_status,
    applyToSelected_proj (fun e => e.Failed_Row_ID) (fun e s => rfl) tracker selected bulk_status,
    applyToSelected_proj (fun e => e.Failed_Value) (fun e s => rfl) tracker selected bulk_status,
    applyToSelected_proj (fun e => e.Notes) (fun e s => rfl) tracker selected bulk_status, ?_⟩
  intro i hi
  unfold applyToSelected
  rw [List.getElem?_map, List.getElem?_enum]
  cases h : tracker[i]? with
  | none => rfl
  | some a => simp [hi]

/-- Witness for C10: a two-row ledger with assignees `"bob"` and `""`,
bulk status `"Resolved"`, empty bulk assignee, subset `{0}`: the assignees
are unchanged, and row `1` (outside the subset) is unchanged entirely. -/
theorem apply_selected_empty_assignee_witness :
    ((applyToSelected
        [⟨"t", "c", "No Nulls", "1", "v", "Open", "bob", "n"⟩,
         ⟨"t", "c", "Range OK", "2", "w", "Open", "", ""⟩]
        [0] "Resolved" "").map fun e => e.Assignee) = ["bob", ""]
    ∧ (applyToSelected
        [⟨"t", "c", "No Nulls", "1", "v", "Open", "bob", "n"⟩,
         ⟨"t", "c", "Range OK", "2", "w", "Open", "", ""⟩]
        [0] "Resolved" "")[1]? =
      some ⟨"t", "c", "Range OK", "2", "w", "Open", "", ""⟩ := by
  have h := apply_selected_empty_assignee
      [⟨"t", "c", "No Nulls", "1", "v", "Open", "bob", "n"⟩,
       ⟨"t", "c", "Range OK", "2", "w", "Open", "", ""⟩] [0] "Resolved"
  refine ⟨?_, ?_⟩
  · rw [h.1]
    rfl
  · rw [h.2.2.2.2.2.2.2 1 (by decide)]
    rfl

/-! ## Theorems: connection resolver -/

/-- **C8.** Connection Resolver: when neither automatic in-platform
authentication (no Databricks runtime or Lakehouse-app markers) nor
explicit credentials (no `.env`/`client_config.json` file, and host, token
and http path not all truthy) are available, `get_connection_config`
resolves to the setup-required configuration (no automatic auth, no
parameters, `requires_setup = true` — the repo's configuration-error
signal), and the tracker's parameter getter fails with the
missing-parameters error. -/
theorem connection_unconfigured_spec (e : EnvState)
    (h1 : is_databricks_runtime e = false)
    (h2 : is_databricks_lakehouse_app e = false)
    (h3 : has_client_config e = false)
    (h4 : stripHttps (e.DATABRICKS_HOST.getD "") = "" ∨ e.DATABRICKS_TOKEN.getD "" = ""
        ∨ e.DATABRICKS_HTTP_PATH.getD "" = "") :
    get_connection_config e =
      { use_automatic_auth := false, connection_params := none, requires_setup := true }
    ∧ get_databricks_connection_params e =
      .error "Missing required Databricks connection parameters" := by
  constructor
  · unfold get_connection_config detect_environment
    rw [h1, h2, h3]
    rfl
  · have hcond : (stripHttps (e.DATABRICKS_HOST.getD "") == ""
        || e.DATABRICKS_TOKEN.getD "" == ""
        || e.DATABRICKS_HTTP_PATH.getD "" == "") = true := by
      rcases h4 with h | h | h <;> simp [h]
    unfold get_databricks_connection_params
    simp only [hcond, if_true]

/-- Witness for C8: an entirely empty environment (no variables set, no
marker paths, no config files) resolves to the setup-required
configuration. -/
theorem connection_unconfigured_spec_witness :
    get_connection_config
        ⟨none, none, none, false, false, none, none, none, false, false,
         none, none, none, none⟩ =
      { use_automatic_auth := false, connection_params := none, requires_setup := true } :=
  (connection_unconfigured_spec
      ⟨none, none, none, false, false, none, none, none, false, false,
       none, none, none, none⟩
      (by decide) (by decide) (by decide) (Or.inr (Or.inl rfl))).1

end AutoDQ
